import Mathlib

/-!
Verification of the Santa API backend (src/main.py) against its
natural-language specification.

The development shallowly embeds the program's pure core:

* the value-level data model of the conversation-arc catalog
  (`ArcCatalog`), loaded once at startup from `conversation-arcs.yaml`;
* the personalization engine: `load_conversation_arc`,
  `generate_greeting` (with the random template choice injected as an
  index, mirroring `random.choice`), and `create_system_prompt`;
* the request-validation and call-orchestration pipeline of
  `POST /api/santa/start-call` (`start_santa_call`), with the single
  outbound provider interaction represented by a `ProviderOutcome`
  input and the number of outbound attempts returned explicitly;
* the analytics aggregator `get_analytics` over the in-memory event
  log, with Python float arithmetic modelled by exact rationals and
  Python's `round` by round-half-to-even on rationals;
* a small object-store model of Python dictionaries (`Store`,
  `PyDict`, `PyVal`) used to reason about the `.copy()` /
  key-assignment aliasing behaviour of `load_conversation_arc`.

The contents of `conversation-arcs.yaml` are not part of the sources;
the catalog is therefore kept abstract (quantified over) everywhere,
and the fields of its leaf records that are only ever interpolated
into prompt text are modelled as opaque strings.
-/

namespace SantaApi

/-- One age-band adaptation record (`age_adaptations.<band>` in the
YAML catalog).  Per the spec these are free-text descriptors, opaque
to all logic and consumed only for prompt rendering. -/
structure AgeAdaptation where
  language_level : String
  response_length : String
  sentence_complexity : String
  energy : String
  attention_span : String
deriving DecidableEq

/-- Timing guideline for one call duration (`timing_guidelines.<dur>`).
The values are only interpolated into the prompt, so they are kept as
opaque rendered scalars. -/
structure TimingGuideline where
  average_response_length_seconds : String
  max_response_length_seconds : String
  pause_between_responses_seconds : String
deriving DecidableEq

/-- One phase of a conversation arc. -/
structure Phase where
  name : String
  duration_seconds : Nat
  percentage : Nat
  goals : List String
  santa_guidelines : List String
  suggested_questions : Option (List String)
deriving DecidableEq

/-- One conversation arc (`arcs.<duration>` in the catalog). -/
structure Arc where
  name : String
  total_duration_seconds : Nat
  phases : List Phase
deriving DecidableEq

/-- A triple of per-age-band values, one per band key
`ages_2_4` / `ages_5_8` / `ages_9_12`. -/
structure AgeBands (α : Type) where
  ages_2_4 : α
  ages_5_8 : α
  ages_9_12 : α
deriving DecidableEq

/-- The process-wide catalog parsed from `conversation-arcs.yaml`
(`CONVERSATION_ARCS` in the source).  String-keyed maps are modelled
as association lists in insertion order. -/
structure ArcCatalog where
  arcs : List (String × Arc)
  age_adaptations : AgeBands AgeAdaptation
  greeting_templates : AgeBands (List String)
  timing_guidelines : List (String × TimingGuideline)
deriving DecidableEq

/-- Association-list lookup, the model of `d[k]` / `d.get(k)` on
string-keyed dictionaries. -/
def lookupKey {α : Type} (l : List (String × α)) (k : String) : Option α :=
  (l.find? (fun p => p.1 == k)).map (fun p => p.2)

/-- The arc dictionary returned by `load_conversation_arc`: the base
arc augmented with the `age_adaptation` and `timing` entries. -/
structure RenderedArc where
  name : String
  total_duration_seconds : Nat
  phases : List Phase
  age_adaptation : AgeAdaptation
  timing : TimingGuideline
deriving DecidableEq

/-- The age-band selection of `load_conversation_arc`
(src/main.py lines 96-101): `age <= 4` picks `ages_2_4`,
`age <= 8` picks `ages_5_8`, anything else picks `ages_9_12`. -/
def adaptationFor (catalog : ArcCatalog) (age : Int) : AgeAdaptation :=
  if age ≤ 4 then catalog.age_adaptations.ages_2_4
  else if age ≤ 8 then catalog.age_adaptations.ages_5_8
  else catalog.age_adaptations.ages_9_12

/-- The operation `load_conversation_arc(duration, age)` (src/main.py lines 91-106)
at the value level: look up the base arc and the timing guideline for
`duration` and attach the age adaptation selected by the threshold
chain.  A missing catalog key raises `KeyError` in Python; that is
modelled by `none`. -/
def load_conversation_arc (catalog : ArcCatalog) (duration : String) (age : Int) :
    Option RenderedArc :=
  match lookupKey catalog.arcs duration, lookupKey catalog.timing_guidelines duration with
  | some arc, some tg =>
      some { name := arc.name
             total_duration_seconds := arc.total_duration_seconds
             phases := arc.phases
             age_adaptation := adaptationFor catalog age
             timing := tg }
  | _, _ => none

/-- The template-list selection of `generate_greeting`
(src/main.py lines 110-115): the same `age <= 4` / `age <= 8`
threshold chain, over `greeting_templates`. -/
def greetingTemplatesFor (catalog : ArcCatalog) (child_age : Int) : List String :=
  if child_age ≤ 4 then catalog.greeting_templates.ages_2_4
  else if child_age ≤ 8 then catalog.greeting_templates.ages_5_8
  else catalog.greeting_templates.ages_9_12

/-- The characters of the `child_name` placeholder that
`str.format` substitutes in a greeting template. -/
def phNameChars : List Char :=
  ['\x7b', 'c', 'h', 'i', 'l', 'd', '_', 'n', 'a', 'm', 'e', '\x7d']

/-- The characters of the `child` placeholder. -/
def phChildChars : List Char :=
  ['\x7b', 'c', 'h', 'i', 'l', 'd', '\x7d']

/-- Character-level model of
`template.format(child_name=nm, child=tm)` for templates whose only
replacement fields are `child_name` and `child`: each occurrence of a
placeholder is replaced by the corresponding argument, all other
characters are copied.  The numerals 12 and 7 are the placeholder
lengths. -/
def formatChars (nm tm : List Char) : List Char → List Char
  | [] => []
  | c :: cs =>
    if phNameChars.isPrefixOf (c :: cs) then
      nm ++ formatChars nm tm ((c :: cs).drop 12)
    else if phChildChars.isPrefixOf (c :: cs) then
      tm ++ formatChars nm tm ((c :: cs).drop 7)
    else
      c :: formatChars nm tm cs
termination_by l => l.length
decreasing_by
  · simp only [List.length_drop, List.length_cons]
    omega
  · simp only [List.length_drop, List.length_cons]
    omega
  · simp only [List.length_cons]
    omega

/-- String-level wrapper for `formatChars`: the model of
`template.format(child_name=..., child=...)`. -/
def pyFormat (template nm tm : String) : String :=
  ⟨formatChars nm.data tm.data template.data⟩

/-- The operation `generate_greeting(child_name, child_age)` (src/main.py lines
108-123).  The call `random.choice(templates)` is modelled by an
injected index `pick`, reduced modulo the list length; the fixed
gender-neutral term is the literal `"child"`. -/
def generate_greeting (catalog : ArcCatalog) (pick : Nat)
    (child_name : String) (child_age : Int) : String :=
  let templates := greetingTemplatesFor catalog child_age
  let template := templates.getD (pick % templates.length) ""
  pyFormat template child_name "child"

/-- Character-level model of Python `str.title()` restricted to the
behaviour relevant here: a letter is uppercased when the previous
character was not a letter and lowercased otherwise; non-letters are
copied and reset the word boundary. -/
def pyTitleChars : Bool → List Char → List Char
  | _, [] => []
  | prevCased, c :: cs =>
    if c.isAlpha then
      (if prevCased then c.toLower else c.toUpper) :: pyTitleChars true cs
    else
      c :: pyTitleChars false cs

/-- Python `s.title()` on strings. -/
def pyTitle (s : String) : String := ⟨pyTitleChars false s.data⟩

/-- Python `chr(10).join(...)` over bullet items: one bullet line per
entry, joined with newlines. -/
def bulletLines (items : List String) : String :=
  String.intercalate "\n" (items.map (fun g => "  - " ++ g))

/-- The text block `create_system_prompt` appends for the `i`-th
phase (1-indexed), src/main.py lines 146-160: humanized phase name,
duration and percentage, goal and guideline bullets, and the optional
suggested-questions section. -/
def phase_block (i : Nat) (p : Phase) : String :=
  "\nPhase " ++ toString i ++ ": " ++ pyTitle (p.name.replace "_" " ") ++ " (" ++
    toString p.duration_seconds ++ "s - " ++ toString p.percentage ++ "%)\nGoals:\n" ++
    bulletLines p.goals ++ "\n\nGuidelines:\n" ++ bulletLines p.santa_guidelines ++ "\n" ++
    (match p.suggested_questions with
     | some qs => "\nSuggested Questions:\n" ++ bulletLines qs ++ "\n"
     | none => "")

/-- The `for i, phase in enumerate(arc["phases"], 1)` loop of
`create_system_prompt`: concatenation of the phase blocks, numbering
from `i`. -/
def phasesTextFrom : Nat → List Phase → String
  | _, [] => ""
  | i, p :: ps => phase_block i p ++ phasesTextFrom (i + 1) ps

/-- The part of the opening f-string of `create_system_prompt` that
precedes the interpolated greeting. -/
def header_pre (child_name : String) (child_age : Int) (duration : String)
    (arc : RenderedArc) : String :=
  "\nPERSONALIZED CONVERSATION CONTEXT:\n\nChild Information:\n- Name: " ++ child_name ++
  "\n- Age: " ++ toString child_age ++ " years old\n- Call Duration: " ++ duration ++
  " (" ++ toString arc.total_duration_seconds ++ " seconds)\n- Language Level: " ++
  arc.age_adaptation.language_level ++
  "\n\nMANDATORY GREETING:\nStart the conversation with: \""

/-- The part of the opening f-string between the greeting and the
phase loop. -/
def header_post (duration : String) (arc : RenderedArc) : String :=
  "\"\n\nCONVERSATION STRUCTURE:\nYou must follow this " ++ duration ++ " arc with " ++
  toString arc.phases.length ++ " phases:\n\n"

/-- The age-adaptation block of the closing f-string
(src/main.py lines 165-169). -/
def age_block (child_age : Int) (aa : AgeAdaptation) : String :=
  "\n\nAGE-SPECIFIC ADAPTATIONS (Age " ++ toString child_age ++ "):\n- Response Length: " ++
  aa.response_length ++ "\n- Sentence Complexity: " ++ aa.sentence_complexity ++
  "\n- Energy Level: " ++ aa.energy ++ "\n- Attention Span: " ++ aa.attention_span

/-- The timing block (src/main.py lines 171-174). -/
def timing_block (t : TimingGuideline) : String :=
  "\n\nTIMING GUIDELINES:\n- Average response: " ++ t.average_response_length_seconds ++
  " seconds\n- Max response: " ++ t.max_response_length_seconds ++
  " seconds\n- Pause between responses: " ++ t.pause_between_responses_seconds ++ " seconds"

/-- The fixed ten-rule conversation-rules list
(src/main.py lines 176-186); rule 1 interpolates the child name. -/
def rules_block (child_name : String) : String :=
  "\n\nCONVERSATION RULES:\n1. Use " ++ child_name ++
  "\x27s name naturally 2-3 times per minute" ++
  "\n2. Keep responses within time limits for your age group" ++
  "\n3. Listen actively - reference what the child says" ++
  "\n4. Never promise specific gifts - use \"I\x27ll see what I can do\" or \"I\x27ll talk to my elves\"" ++
  "\n5. Stay in character as Santa Claus at all times" ++
  "\n6. If child shows objects, acknowledge and comment on them" ++
  "\n7. Keep the magic of Christmas alive" ++
  "\n8. Be warm, encouraging, and kind" ++
  "\n9. Follow the phase structure but allow natural conversation flow" ++
  "\n10. If running long, gracefully transition to closing phase"

/-- The quality-indicator checklist and closing reminder
(src/main.py lines 188-196). -/
def quality_block (child_name : String) : String :=
  "\n\nQUALITY INDICATORS:\n- Child is engaged and responding" ++
  "\n- Conversation feels natural, not scripted" ++
  "\n- Child seems comfortable and happy" ++
  "\n- Name usage feels natural, not forced" ++
  "\n- Transitions between phases are smooth" ++
  "\n\nRemember: You are Santa Claus. Be magical, kind, and create a memorable experience for " ++
  child_name ++ "!\n"

/-- The operation `create_system_prompt` (src/main.py lines 125-198): the exact
concatenation the Python function builds by successive `+=`. -/
def create_system_prompt (child_name : String) (child_age : Int) (duration : String)
    (greeting : String) (arc : RenderedArc) : String :=
  header_pre child_name child_age duration arc ++ greeting ++ header_post duration arc ++
  phasesTextFrom 1 arc.phases ++ age_block child_age arc.age_adaptation ++
  timing_block arc.timing ++ rules_block child_name ++ quality_block child_name

/-- The body of `POST /api/santa/start-call` (`StartCallRequest` in
src/main.py lines 55-65), before validation. -/
structure StartCallRequest where
  child_name : String
  child_age : Int
  call_duration : String
  parent_email : Option String
deriving DecidableEq

/-- The pydantic validation of `StartCallRequest`: name length 1-50,
age 2-12, and the `call_duration` validator accepting exactly
`"5min"` and `"10min"`. -/
def validStart (r : StartCallRequest) : Bool :=
  decide (1 ≤ r.child_name.length) && decide (r.child_name.length ≤ 50) &&
  decide (2 ≤ r.child_age) && decide (r.child_age ≤ 12) &&
  (r.call_duration == "5min" || r.call_duration == "10min")

/-- The provider credentials (`TAVUS_API_KEY`, `TAVUS_PERSONA_ID`
environment variables); `none` models an unset variable. -/
structure TavusConfig where
  api_key : Option String
  persona_id : Option String
deriving DecidableEq

/-- Python truthiness of an optional environment string: `None` and
the empty string are falsy. -/
def truthy : Option String → Bool
  | none => false
  | some s => !s.isEmpty

/-- The fields the code reads from a 200 provider response body
(`tavus_data` in the source). -/
structure TavusSuccess where
  conversation_id : String
  conversation_url : String
  expires_at : Option String
deriving DecidableEq

/-- The result of the single outbound `POST {base}/conversations`
attempt: a transport timeout (`httpx.TimeoutException`), another
transport error (`httpx.RequestError`), or an HTTP response with a
status code, raw body, and - used only when the status is 200 - the
parsed body fields. -/
inductive ProviderOutcome where
  | timeout
  | transportError (msg : String)
  | response (status : Nat) (body : String) (data : TavusSuccess)
deriving DecidableEq

/-- The `call_metadata` dictionary of a successful response. -/
structure CallMetadata where
  child_name : String
  child_age : Int
  call_duration : String
  greeting : String
  arc_name : String
  phases : Nat
deriving DecidableEq

/-- The response model `StartCallResponse` (src/main.py lines 67-72). -/
structure StartCallResponse where
  conversation_id : String
  conversation_url : String
  expires_at : String
  call_metadata : CallMetadata
  estimated_end_time : String
deriving DecidableEq

/-- Outcome of an endpoint invocation: either a value or an
`HTTPException` with a status code and a detail message. -/
inductive ApiResult (α : Type) where
  | ok (value : α)
  | error (status : Nat) (detail : String)
deriving DecidableEq

/-- The handler body of `POST /api/santa/start-call`
(src/main.py lines 270-388), for an already-validated request.
`pick` injects the random greeting choice, `nowPlus s` stands for
`(datetime.utcnow() + timedelta(seconds=s)).isoformat()`, and
`outcome` is the result of the single outbound provider call.  The
second component of the result counts outbound provider attempts.
A `KeyError` on a missing catalog entry surfaces as an unhandled
exception, i.e. a plain 500. -/
def start_santa_call (cfg : TavusConfig) (catalog : ArcCatalog) (pick : Nat)
    (nowPlus : Nat → String) (req : StartCallRequest) (outcome : ProviderOutcome) :
    ApiResult StartCallResponse × Nat :=
  if !truthy cfg.api_key || !truthy cfg.persona_id then
    (.error 500 "Tavus API credentials not configured. Please set TAVUS_API_KEY and TAVUS_PERSONA_ID environment variables.", 0)
  else
    let greeting := generate_greeting catalog pick req.child_name req.child_age
    match load_conversation_arc catalog req.call_duration req.child_age with
    | none => (.error 500 "Internal Server Error", 0)
    | some arc =>
      let system_prompt :=
        create_system_prompt req.child_name req.child_age req.call_duration greeting arc
      let max_duration : Nat := if req.call_duration == "5min" then 300 else 600
      match outcome with
      | .timeout =>
          (.error 504 "Timeout connecting to Tavus API. Please try again.", 1)
      | .transportError msg =>
          (.error 503 ("Error connecting to Tavus API: " ++ msg), 1)
      | .response status body data =>
          if status ≠ 200 then
            (.error status ("Tavus API error: " ++ body), 1)
          else
            (.ok { conversation_id := data.conversation_id
                   conversation_url := data.conversation_url
                   expires_at := data.expires_at.getD (nowPlus max_duration)
                   call_metadata :=
                     { child_name := req.child_name
                       child_age := req.child_age
                       call_duration := req.call_duration
                       greeting := greeting
                       arc_name := arc.name
                       phases := arc.phases.length }
                   estimated_end_time := nowPlus max_duration }, 1)

/-- The full request path of `POST /api/santa/start-call`: FastAPI
runs the pydantic validation of `StartCallRequest` first and rejects
a malformed body with a 422 validation error before the handler (and
hence any outbound call) runs. -/
def handle_start_call (cfg : TavusConfig) (catalog : ArcCatalog) (pick : Nat)
    (nowPlus : Nat → String) (raw : StartCallRequest) (outcome : ProviderOutcome) :
    ApiResult StartCallResponse × Nat :=
  if validStart raw then start_santa_call cfg catalog pick nowPlus raw outcome
  else (.error 422 "Request validation failed", 0)

/-! ### Concrete sample data used by the witnesses

The YAML catalog is not part of the sources, so these values are just
well-formed inputs on which the theorems are exercised. -/

/-- Sample age adaptations. -/
def sampleAdaptations : AgeBands AgeAdaptation :=
  ⟨⟨"very simple", "short", "simple", "high", "very short"⟩,
   ⟨"simple", "medium", "moderate", "high", "medium"⟩,
   ⟨"normal", "longer", "richer", "medium", "longer"⟩⟩

/-- Sample greeting templates; each contains the name placeholder. -/
def sampleTemplates : AgeBands (List String) :=
  ⟨["Ho ho ho! Hello \x7bchild_name\x7d!"],
   ["Ho ho ho! Merry Christmas, \x7bchild_name\x7d!", "Well hello there, \x7bchild_name\x7d!"],
   ["Hey \x7bchild_name\x7d, Santa here!"]⟩

/-- Sample phase. -/
def samplePhase : Phase :=
  { name := "warm_welcome", duration_seconds := 60, percentage := 20,
    goals := ["Make the child feel special"],
    santa_guidelines := ["Use their name"],
    suggested_questions := some ["Have you been good this year?"] }

/-- Sample arc. -/
def sampleArc : Arc :=
  { name := "Quick Visit", total_duration_seconds := 300, phases := [samplePhase] }

/-- Sample timing guideline. -/
def sampleTiming : TimingGuideline := ⟨"10", "20", "1"⟩

/-- Sample catalog with a single `5min` arc. -/
def sampleCatalog : ArcCatalog :=
  { arcs := [("5min", sampleArc)],
    age_adaptations := sampleAdaptations,
    greeting_templates := sampleTemplates,
    timing_guidelines := [("5min", sampleTiming)] }

/-- The arc `load_conversation_arc sampleCatalog "5min" 4` builds. -/
def sampleRendered : RenderedArc :=
  { name := "Quick Visit", total_duration_seconds := 300, phases := [samplePhase],
    age_adaptation := sampleAdaptations.ages_2_4, timing := sampleTiming }

/-- The arc `load_conversation_arc sampleCatalog "5min" 6` builds. -/
def sampleRendered6 : RenderedArc :=
  { name := "Quick Visit", total_duration_seconds := 300, phases := [samplePhase],
    age_adaptation := sampleAdaptations.ages_5_8, timing := sampleTiming }

/-- A well-formed request body. -/
def validReq : StartCallRequest := ⟨"Max", 6, "5min", none⟩

/-- A request body with the invalid duration literal `7min`. -/
def invalidReq : StartCallRequest := ⟨"Max", 8, "7min", none⟩

/-- A fixed stand-in for the ambient-time function `nowPlus`. -/
def constEnd : Nat → String := fun _ => "2025-12-24T18:05:00"

/-- Predicate `charsContainAll s l`: the strings of `l` occur in `s`
as disjoint substrings, in the order listed. -/
def charsContainAll : List Char → List String → Prop
  | _, [] => True
  | s, x :: xs => ∃ a b : List Char, s = a ++ x.data ++ b ∧ charsContainAll b xs

/-- The phase blocks of an arc, numbered from `i`, as separate
strings (in the order the phase loop emits them). -/
def phaseBlockList : Nat → List Phase → List String
  | _, [] => []
  | i, p :: ps => phase_block i p :: phaseBlockList (i + 1) ps

/-- Decision procedure `hasSub p s`: whether `p` occurs in `s` as a contiguous
substring (at character level). -/
def hasSub (p : List Char) : List Char → Bool
  | [] => p.isEmpty
  | c :: cs => p.isPrefixOf (c :: cs) || hasSub p cs

/-! ### Analytics aggregator -/

/-- A `call_started` analytics event, as appended by
`track_call_started` (src/main.py lines 200-209). -/
structure StartedEvent where
  timestamp : String
  conversation_id : String
  child_age : Int
  call_duration : String
  parent_email : Option String
deriving DecidableEq

/-- A `call_completed` analytics event, as appended by
`track_call_completed` (src/main.py lines 211-217) from a validated
`CallCompletionRequest`. -/
structure CompletedEvent where
  timestamp : String
  conversation_id : String
  actual_duration_seconds : Int
  parent_rating : Option Int
  parent_feedback : Option String
  child_enjoyed : Option Bool
deriving DecidableEq

/-- One entry of the in-memory `analytics_store`. -/
inductive AnalyticsEvent where
  | started (e : StartedEvent)
  | completed (e : CompletedEvent)
deriving DecidableEq

/-- The filter `[x for x in analytics_store if x["event"] == "call_started"]`. -/
def startedEvents (store : List AnalyticsEvent) : List StartedEvent :=
  store.filterMap (fun e => match e with | .started s => some s | _ => none)

/-- The filter `[x for x in analytics_store if x["event"] == "call_completed"]`. -/
def completedEvents (store : List AnalyticsEvent) : List CompletedEvent :=
  store.filterMap (fun e => match e with | .completed c => some c | _ => none)

/-- Python `d.get(k, 0)` on a string-keyed counter dictionary. -/
def getCount (d : List (String × Nat)) (k : String) : Nat :=
  ((d.find? (fun p => p.1 == k)).map (fun p => p.2)).getD 0

/-- Python `d[k] = v` on a counter dictionary: replace in place when the key
exists, append otherwise (Python insertion-order semantics). -/
def setCount : List (String × Nat) → String → Nat → List (String × Nat)
  | [], k, v => [(k, v)]
  | (k', v') :: rest, k, v =>
    if k' == k then (k, v) :: rest else (k', v') :: setCount rest k v

/-- One loop iteration `d[k] = d.get(k, 0) + 1` of the grouping loops
in `get_analytics`. -/
def bumpCount (d : List (String × Nat)) (k : String) : List (String × Nat) :=
  setCount d k (getCount d k + 1)

/-- Floor of a rational. -/
def ratFloor (q : ℚ) : ℤ := ⌊q⌋

/-- Round-half-to-even to an integer, the rounding Python's `round`
performs at exact ties. -/
def roundHalfEven (q : ℚ) : ℤ :=
  let f := ratFloor q
  if q - f < 1 / 2 then f
  else if (1 : ℚ) / 2 < q - f then f + 1
  else if f % 2 = 0 then f else f + 1

/-- Python `round(q, ndigits)` with exact rational arithmetic in place of
binary floating point. -/
def pyRound (ndigits : Nat) (q : ℚ) : ℚ :=
  (roundHalfEven (q * (10 : ℚ) ^ ndigits) : ℚ) / (10 : ℚ) ^ ndigits

/-- The response model `AnalyticsResponse` (src/main.py lines 81-87), with the float
averages carried as exact rationals. -/
structure AnalyticsResponse where
  total_calls : Nat
  calls_today : Nat
  average_duration_seconds : ℚ
  average_rating : ℚ
  calls_by_duration : List (String × Nat)
  calls_by_age : List (String × Nat)
deriving DecidableEq

/-- The endpoint `GET /api/santa/analytics` (src/main.py lines 423-490).
`dateOf ts` stands for `datetime.fromisoformat(ts).date()` and
`today` for `datetime.utcnow().date()`, both opaque here.  The rating
filter keeps the source's truthiness test `x.get("parent_rating")`,
which drops both a missing rating and a literal 0. -/
def get_analytics (dateOf : String → String) (today : String)
    (store : List AnalyticsEvent) : AnalyticsResponse :=
  if store.isEmpty then
    { total_calls := 0, calls_today := 0, average_duration_seconds := 0,
      average_rating := 0, calls_by_duration := [], calls_by_age := [] }
  else
    let started_calls := startedEvents store
    let completed_calls := completedEvents store
    let calls_today :=
      (started_calls.filter (fun e => dateOf e.timestamp == today)).length
    let dur_sum : ℤ := (completed_calls.map (fun e => e.actual_duration_seconds)).sum
    let avg_duration : ℚ :=
      if completed_calls.isEmpty then 0
      else (dur_sum : ℚ) / (completed_calls.length : ℚ)
    let ratings :=
      (completed_calls.filter (fun e => e.parent_rating.getD 0 != 0)).map
        (fun e => e.parent_rating.getD 0)
    let rating_sum : ℤ := ratings.sum
    let avg_rating : ℚ :=
      if ratings.isEmpty then 0
      else (rating_sum : ℚ) / (ratings.length : ℚ)
    { total_calls := started_calls.length
      calls_today := calls_today
      average_duration_seconds := pyRound 1 avg_duration
      average_rating := pyRound 2 avg_rating
      calls_by_duration := started_calls.foldl (fun d e => bumpCount d e.call_duration) []
      calls_by_age := started_calls.foldl (fun d e => bumpCount d (toString e.child_age)) [] }

/-- Spec-side definition (for the refinement comparison): the mean of
`actual_duration_seconds` over all completed events, 0 if there are
none. -/
def specMeanDuration (store : List AnalyticsEvent) : ℚ :=
  let cs := completedEvents store
  let s : ℤ := (cs.map (fun e => e.actual_duration_seconds)).sum
  if cs.isEmpty then 0
  else (s : ℚ) / (cs.length : ℚ)

/-- Spec-side definition: the mean of `parent_rating` over the
completed events that supplied a rating, 0 if none did. -/
def specMeanRating (store : List AnalyticsEvent) : ℚ :=
  let rs := (completedEvents store).filterMap (fun e => e.parent_rating)
  let s : ℤ := rs.sum
  if rs.isEmpty then 0
  else (s : ℚ) / (rs.length : ℚ)

/-- The identity stand-in for the opaque date projection. -/
def idDate : String → String := fun s => s

/-- Three completed calls with durations 1, 1 and 2 seconds. -/
def threeCompleted : List AnalyticsEvent :=
  [.completed ⟨"t1", "c1", 1, none, none, none⟩,
   .completed ⟨"t2", "c2", 1, none, none, none⟩,
   .completed ⟨"t3", "c3", 2, none, none, none⟩]

/-- One completed call of 240 seconds with no rating. -/
def oneCompleted240 : List AnalyticsEvent :=
  [.completed ⟨"t", "c", 240, none, none, none⟩]

/-- Two started calls with durations `5min` and `10min`. -/
def twoStarted : List AnalyticsEvent :=
  [.started ⟨"t1", "c1", 6, "5min", none⟩,
   .started ⟨"t2", "c2", 9, "10min", none⟩]

/-! ### Object-store model of the catalog dictionaries

`load_conversation_arc` mutates a shallow `.copy()` of the stored arc
dictionary.  To reason about that aliasing behaviour the parsed YAML
value is modelled as a store of dictionary objects addressed by
natural numbers, with dictionary values that are scalars or
references to other objects (nested dicts or lists). -/

/-- A Python value held in a dictionary slot: a string or integer
scalar, or a reference to another heap object. -/
inductive PyVal where
  | vstr (s : String)
  | vint (n : Int)
  | vref (a : Nat)
deriving DecidableEq

/-- A dictionary object: association list in insertion order. -/
abbrev PyDict := List (String × PyVal)

/-- The object store; the address of an object is its index. -/
abbrev Store := List PyDict

/-- Python `d[k]` / `d.get(k)` on a heap dictionary. -/
def dictGet (d : PyDict) (k : String) : Option PyVal :=
  (d.find? (fun p => p.1 == k)).map (fun p => p.2)

/-- Python `d[k] = v`: replace in place when the key exists, append
otherwise. -/
def dictSet : PyDict → String → PyVal → PyDict
  | [], k, v => [(k, v)]
  | (k', v') :: rest, k, v =>
    if k' == k then (k, v) :: rest else (k', v') :: dictSet rest k v

/-- Dereference a slot value expected to hold an object reference. -/
def getRef : Option PyVal → Option Nat
  | some (.vref a) => some a
  | _ => none

/-- The band key chosen by the `age <= 4` / `age <= 8` threshold
chain of `load_conversation_arc`. -/
def bandKey (age : Int) : String :=
  if age ≤ 4 then "ages_2_4" else if age ≤ 8 then "ages_5_8" else "ages_9_12"

/-- The operation `load_conversation_arc` at the heap level (src/main.py lines
91-106): resolve `CONVERSATION_ARCS["arcs"][duration]`, allocate a
shallow `.copy()` of that dictionary at a fresh address, then assign
`"age_adaptation"` and `"timing"` on the copy.  Every failed lookup
(`KeyError` / non-dict value) is `none`. -/
def load_conversation_arc_heap (st : Store) (root : Nat) (duration : String)
    (age : Int) : Option (Nat × Store) :=
  match st[root]? with
  | none => none
  | some rootD =>
    match getRef (dictGet rootD "arcs") with
    | none => none
    | some arcsA =>
      match st[arcsA]? with
      | none => none
      | some arcsD =>
        match getRef (dictGet arcsD duration) with
        | none => none
        | some arcA =>
          match st[arcA]? with
          | none => none
          | some arcD =>
            let newA := st.length
            let st1 := st ++ [arcD]
            match getRef (dictGet rootD "age_adaptations") with
            | none => none
            | some aaA =>
              match st1[aaA]? with
              | none => none
              | some aaD =>
                match dictGet aaD (bandKey age) with
                | none => none
                | some aaV =>
                  let st2 := st1.set newA (dictSet arcD "age_adaptation" aaV)
                  match getRef (dictGet rootD "timing_guidelines") with
                  | none => none
                  | some tgA =>
                    match st2[tgA]? with
                    | none => none
                    | some tgD =>
                      match dictGet tgD duration with
                      | none => none
                      | some tgV =>
                        match st2[newA]? with
                        | none => none
                        | some curD =>
                          some (newA, st2.set newA (dictSet curD "timing" tgV))

/-- Any sequence of `load_conversation_arc` calls (each with a
duration and an age), threading the store through the successful
ones. -/
def runArcCalls (root : Nat) : Store → List (String × Int) → Store
  | st, [] => st
  | st, c :: rest =>
    match load_conversation_arc_heap st root c.1 c.2 with
    | some p => runArcCalls root p.2 rest
    | none => runArcCalls root st rest

/-- The stored `5min` arc dictionary of the sample heap. -/
def sampleArcDict : PyDict :=
  [("name", .vstr "Quick Visit"), ("total_duration_seconds", .vint 300),
   ("phases", .vref 9)]

/-- A sample heap: object 0 is `CONVERSATION_ARCS`, object 4 the
stored `5min` arc, objects 5-9 the band/timing/phase objects. -/
def sampleHeap : Store :=
  [[("arcs", .vref 1), ("age_adaptations", .vref 2), ("timing_guidelines", .vref 3)],
   [("5min", .vref 4)],
   [("ages_2_4", .vref 5), ("ages_5_8", .vref 6), ("ages_9_12", .vref 7)],
   [("5min", .vref 8)],
   sampleArcDict,
   [], [], [], [], []]

/-- The sample heap after one `load_conversation_arc("5min", 3)`:
unchanged except for the freshly allocated copy at address 10. -/
def sampleHeapAfter : Store :=
  sampleHeap ++
    [sampleArcDict ++ [("age_adaptation", .vref 5), ("timing", .vref 8)]]

end SantaApi

namespace SantaApi

/-- C1: for ages 2-12, both personalization operations select the age
band by the documented thresholds: ages 2-4 (4 inclusive) use
`ages_2_4`, ages 5-8 (8 inclusive) use `ages_5_8`, ages 9-12 use
`ages_9_12`.  The arc side is read off the `age_adaptation` field of
the built arc, the greeting side off the template list the greeting
generator draws from. -/
theorem age_band_selection (catalog : ArcCatalog) (duration : String) (age : Int)
    (r : RenderedArc) (h : load_conversation_arc catalog duration age = some r) :
    ((2 ≤ age ∧ age ≤ 4) →
        r.age_adaptation = catalog.age_adaptations.ages_2_4 ∧
        greetingTemplatesFor catalog age = catalog.greeting_templates.ages_2_4) ∧
    ((5 ≤ age ∧ age ≤ 8) →
        r.age_adaptation = catalog.age_adaptations.ages_5_8 ∧
        greetingTemplatesFor catalog age = catalog.greeting_templates.ages_5_8) ∧
    ((9 ≤ age ∧ age ≤ 12) →
        r.age_adaptation = catalog.age_adaptations.ages_9_12 ∧
        greetingTemplatesFor catalog age = catalog.greeting_templates.ages_9_12) := by
  have hr : r.age_adaptation = adaptationFor catalog age := by
    unfold load_conversation_arc at h
    rcases h1 : lookupKey catalog.arcs duration with _ | arc <;>
      rcases h2 : lookupKey catalog.timing_guidelines duration with _ | tg <;>
      simp [h1, h2] at h
    rw [← h]
  refine ⟨fun hb => ⟨?_, ?_⟩, fun hb => ⟨?_, ?_⟩, fun hb => ⟨?_, ?_⟩⟩ <;>
    simp only [hr, adaptationFor, greetingTemplatesFor] <;>
    split_ifs <;> first | rfl | omega

/-- Witness for C1: at age 4 (an edge value) on the sample catalog,
both operations use the `ages_2_4` band. -/
theorem age_band_selection_witness :
    sampleRendered.age_adaptation = sampleCatalog.age_adaptations.ages_2_4 ∧
    greetingTemplatesFor sampleCatalog 4 = sampleCatalog.greeting_templates.ages_2_4 :=
  (age_band_selection sampleCatalog "5min" 4 sampleRendered (by decide)).1 (by decide)

/-- C4: a start-call request with a bad duration literal, an age
outside 2-12, or a name of length outside 1-50 is rejected by the
validation layer with a 422 (a 4xx client error) and the provider is
never contacted (zero outbound attempts). -/
theorem invalid_request_rejected (cfg : TavusConfig) (catalog : ArcCatalog) (pick : Nat)
    (nowPlus : Nat → String) (raw : StartCallRequest) (outcome : ProviderOutcome)
    (h : ¬(raw.call_duration = "5min" ∨ raw.call_duration = "10min") ∨
         raw.child_age < 2 ∨ 12 < raw.child_age ∨
         raw.child_name.length < 1 ∨ 50 < raw.child_name.length) :
    handle_start_call cfg catalog pick nowPlus raw outcome
      = (.error 422 "Request validation failed", 0) ∧ 400 ≤ 422 ∧ 422 < 500 := by
  have hv : validStart raw = false := by
    cases hvb : validStart raw with
    | false => rfl
    | true =>
      have hp : (((1 ≤ raw.child_name.length ∧ raw.child_name.length ≤ 50) ∧
                  2 ≤ raw.child_age) ∧ raw.child_age ≤ 12) ∧
                (raw.call_duration = "5min" ∨ raw.call_duration = "10min") := by
        simpa [validStart, Bool.and_eq_true, Bool.or_eq_true, decide_eq_true_eq,
               beq_iff_eq] using hvb
      obtain ⟨⟨⟨⟨hn1, hn2⟩, ha1⟩, ha2⟩, hd⟩ := hp
      rcases h with h | h | h | h | h
      · exact absurd hd h
      all_goals omega
  refine ⟨?_, by omega, by omega⟩
  simp [handle_start_call, hv]

/-- Witness for C4: `call_duration="7min"` is rejected with 422 and
no provider attempt. -/
theorem invalid_request_rejected_witness :
    handle_start_call ⟨some "k", some "p"⟩ sampleCatalog 0 constEnd invalidReq .timeout
      = (.error 422 "Request validation failed", 0) :=
  (invalid_request_rejected ⟨some "k", some "p"⟩ sampleCatalog 0 constEnd invalidReq
    .timeout (by decide)).1

/-- C5: a valid request with either credential unset (or empty, which
Python treats the same) fails with the 500 configuration error and no
outbound attempt is made. -/
theorem missing_credentials_config_error (cfg : TavusConfig) (catalog : ArcCatalog)
    (pick : Nat) (nowPlus : Nat → String) (raw : StartCallRequest)
    (outcome : ProviderOutcome)
    (hval : validStart raw = true)
    (hcred : truthy cfg.api_key = false ∨ truthy cfg.persona_id = false) :
    handle_start_call cfg catalog pick nowPlus raw outcome
      = (.error 500 "Tavus API credentials not configured. Please set TAVUS_API_KEY and TAVUS_PERSONA_ID environment variables.", 0) := by
  unfold handle_start_call start_santa_call
  rw [hval]
  rcases hcred with hc | hc <;> simp [hc]

/-- Witness for C5: unset API key on an otherwise valid request. -/
theorem missing_credentials_config_error_witness :
    handle_start_call ⟨none, some "p"⟩ sampleCatalog 0 constEnd validReq .timeout
      = (.error 500 "Tavus API credentials not configured. Please set TAVUS_API_KEY and TAVUS_PERSONA_ID environment variables.", 0) :=
  missing_credentials_config_error ⟨none, some "p"⟩ sampleCatalog 0 constEnd validReq
    .timeout (by decide) (Or.inl (by decide))

/-- C6: once a valid, credentialed request reaches the outbound call
(the catalog lookups succeed and the greeting band is non-empty, so
no earlier exception fires), the single provider attempt's failure
modes map exactly as specified: timeout to 504 with a retry message,
transport error to 503, and a non-200 response to an error carrying
the provider's status with the body in the detail - with exactly one
outbound attempt in each case. -/
theorem provider_failure_mapping (cfg : TavusConfig) (catalog : ArcCatalog) (pick : Nat)
    (nowPlus : Nat → String) (req : StartCallRequest) (r : RenderedArc)
    (hval : validStart req = true)
    (hkey : truthy cfg.api_key = true) (hpid : truthy cfg.persona_id = true)
    (harc : load_conversation_arc catalog req.call_duration req.child_age = some r)
    (hne : greetingTemplatesFor catalog req.child_age ≠ []) :
    handle_start_call cfg catalog pick nowPlus req .timeout
      = (.error 504 "Timeout connecting to Tavus API. Please try again.", 1) ∧
    (∀ msg, handle_start_call cfg catalog pick nowPlus req (.transportError msg)
      = (.error 503 ("Error connecting to Tavus API: " ++ msg), 1)) ∧
    (∀ status body data, status ≠ 200 →
      handle_start_call cfg catalog pick nowPlus req (.response status body data)
        = (.error status ("Tavus API error: " ++ body), 1)) := by
  refine ⟨?_, fun msg => ?_, fun status body data hs => ?_⟩ <;>
    unfold handle_start_call start_santa_call <;> rw [hval] <;>
    simp [hkey, hpid, harc]
  exact hs

/-- Witness for C6: on the sample catalog, a timeout maps to 504 and
a 402 provider rejection is propagated with its body. -/
theorem provider_failure_mapping_witness :
    handle_start_call ⟨some "k", some "p"⟩ sampleCatalog 0 constEnd validReq .timeout
      = (.error 504 "Timeout connecting to Tavus API. Please try again.", 1) ∧
    handle_start_call ⟨some "k", some "p"⟩ sampleCatalog 0 constEnd validReq
        (.response 402 "Payment Required" ⟨"cid", "curl", none⟩)
      = (.error 402 "Tavus API error: Payment Required", 1) := by
  have h := provider_failure_mapping ⟨some "k", some "p"⟩ sampleCatalog 0 constEnd validReq
    sampleRendered6 (by decide) (by decide) (by decide) (by decide) (by decide)
  exact ⟨h.1, h.2.2 402 "Payment Required" ⟨"cid", "curl", none⟩ (by decide)⟩

/-- Prepending arbitrary text preserves ordered containment. -/
theorem charsContainAll_skip {s : List Char} {l : List String} (a : List Char)
    (h : charsContainAll s l) : charsContainAll (a ++ s) l := by
  cases l with
  | nil => trivial
  | cons x xs =>
    obtain ⟨p, b, hs, hrest⟩ := h
    exact ⟨a ++ p, b, by rw [hs]; simp [List.append_assoc], hrest⟩

/-- A string starting with `x` contains `x :: xs` in order whenever
the remainder contains `xs` in order. -/
theorem charsContainAll_cons {b : List Char} {xs : List String} (x : String)
    (h : charsContainAll b xs) : charsContainAll (x.data ++ b) (x :: xs) :=
  ⟨[], b, by simp, h⟩

/-- The phase loop emits exactly its phase blocks, in order. -/
theorem phasesText_chain (ps : List Phase) (i : Nat) (tail : List Char)
    (rest : List String) (h : charsContainAll tail rest) :
    charsContainAll ((phasesTextFrom i ps).data ++ tail)
      (phaseBlockList i ps ++ rest) := by
  induction ps generalizing i with
  | nil =>
    simpa [phasesTextFrom, phaseBlockList] using h
  | cons p ps ih =>
    simp only [phasesTextFrom, phaseBlockList, String.data_append, List.append_assoc,
      List.cons_append]
    exact charsContainAll_cons _ (ih (i + 1))

/-- C2: for every child name, age, duration, greeting and rendered
arc, the system prompt contains, in this order: the exact greeting,
one block per phase in the arc's phase order, the age-adaptation
block, the timing block, and the fixed ten-rule conversation-rules
list. -/
theorem system_prompt_structure (child_name : String) (child_age : Int)
    (duration : String) (greeting : String) (arc : RenderedArc) :
    charsContainAll (create_system_prompt child_name child_age duration greeting arc).data
      (greeting :: (phaseBlockList 1 arc.phases ++
        [age_block child_age arc.age_adaptation, timing_block arc.timing,
         rules_block child_name])) := by
  have hd : (create_system_prompt child_name child_age duration greeting arc).data
      = (header_pre child_name child_age duration arc).data ++
        (greeting.data ++ ((header_post duration arc).data ++
        ((phasesTextFrom 1 arc.phases).data ++
        ((age_block child_age arc.age_adaptation).data ++
        ((timing_block arc.timing).data ++
        ((rules_block child_name).data ++ (quality_block child_name).data)))))) := by
    simp [create_system_prompt, String.data_append, List.append_assoc]
  rw [hd]
  refine charsContainAll_skip _ (charsContainAll_cons _ ?_)
  refine charsContainAll_skip _ ?_
  refine phasesText_chain _ 1 _ _ ?_
  refine charsContainAll_cons _ ?_
  refine charsContainAll_cons _ ?_
  exact charsContainAll_cons _ trivial

/-- Value of `ratFloor` at a rational bracketed by an integer. -/
theorem ratFloor_eq (q : ℚ) (z : ℤ) (h1 : (z : ℚ) ≤ q) (h2 : q < z + 1) :
    ratFloor q = z := by
  unfold ratFloor
  rw [Int.floor_eq_iff]
  exact ⟨h1, h2⟩

/-- Rounding zero gives zero. -/
theorem pyRound_zero (n : Nat) : pyRound n (0 : ℚ) = 0 := by
  have hf : ratFloor ((0 : ℚ) * (10 : ℚ) ^ n) = 0 := by
    rw [zero_mul]
    exact ratFloor_eq 0 0 (by norm_num) (by norm_num)
  simp only [pyRound, roundHalfEven, hf]
  rw [zero_mul, if_pos (by norm_num)]
  simp

/-- Counterexample to C7 as stated: on three completed calls of 1, 1
and 2 seconds, the reported average is the rounded value 13/10, not
the exact mean 4/3. -/
theorem analytics_mean_counterexample :
    (get_analytics idDate "d" threeCompleted).average_duration_seconds
      ≠ ((1 : ℚ) + 1 + 2) / 3 := by
  have e1 : (get_analytics idDate "d" threeCompleted).average_duration_seconds
      = pyRound 1 (((((1 : ℤ) + ((1 : ℤ) + ((2 : ℤ) + 0))) : ℤ) : ℚ) /
          ((3 : ℕ) : ℚ)) := rfl
  have e2 : (((((1 : ℤ) + ((1 : ℤ) + ((2 : ℤ) + 0))) : ℤ) : ℚ) / ((3 : ℕ) : ℚ))
      = 4 / 3 := by push_cast; ring
  have hf : ratFloor ((4 / 3 : ℚ) * (10 : ℚ) ^ (1 : ℕ)) = 13 :=
    ratFloor_eq _ _ (by norm_num) (by norm_num)
  have e3 : pyRound 1 ((4 : ℚ) / 3) = 13 / 10 := by
    simp only [pyRound, roundHalfEven, hf]
    rw [if_pos (by norm_num)]
    norm_num
  rw [e1, e2, e3]
  norm_num

/-- Under the boundary validation (no rating is the literal 0), the
source's truthiness filter over ratings coincides with "supplied a
rating". -/
theorem ratings_filter_eq (cs : List CompletedEvent)
    (h0 : ∀ c ∈ cs, c.parent_rating ≠ some 0) :
    (cs.filter (fun e => e.parent_rating.getD 0 != 0)).map
        (fun e => e.parent_rating.getD 0)
      = cs.filterMap (fun e => e.parent_rating) := by
  induction cs with
  | nil => rfl
  | cons c rest ih =>
    have hrest : ∀ x ∈ rest, x.parent_rating ≠ some 0 := fun x hx =>
      h0 x (List.mem_cons_of_mem _ hx)
    cases hr : c.parent_rating with
    | none =>
      simp only [List.filter_cons, List.filterMap_cons, hr]
      simp [ih hrest]
    | some r =>
      have hrne : r ≠ 0 := by
        intro h
        exact (h0 c (List.mem_cons_self _ _)) (by rw [hr, h])
      simp only [List.filter_cons, List.filterMap_cons, hr]
      simp [hr, bne_iff_ne, hrne, ih hrest]

/-- C7 (amended): the analytics averages are the exact means rounded
by Python's `round` - the duration average to one decimal place over
all completed events, the rating average to two decimal places over
the completed events that supplied a rating - each 0 when the
underlying set is empty; and on the concrete one-event log with
duration 240 and no rating the reported values are exactly 240 and 0.
The hypothesis records the request-validation boundary (ratings are
1-5, so never the untruthy literal 0). -/
theorem analytics_means (dateOf : String → String) (today : String)
    (store : List AnalyticsEvent)
    (h0 : ∀ c ∈ completedEvents store, c.parent_rating ≠ some 0) :
    ((get_analytics dateOf today store).average_duration_seconds
      = pyRound 1 (specMeanDuration store) ∧
     (get_analytics dateOf today store).average_rating
      = pyRound 2 (specMeanRating store)) ∧
    ((get_analytics idDate "d" oneCompleted240).average_duration_seconds = 240 ∧
     (get_analytics idDate "d" oneCompleted240).average_rating = 0) := by
  constructor
  · cases store with
    | nil => exact ⟨(pyRound_zero 1).symm, (pyRound_zero 2).symm⟩
    | cons e es =>
      constructor
      · rfl
      · have hr := ratings_filter_eq (completedEvents (e :: es)) h0
        have e1 : (get_analytics dateOf today (e :: es)).average_rating = pyRound 2
            (if (((completedEvents (e :: es)).filter
                (fun c => c.parent_rating.getD 0 != 0)).map
                (fun c => c.parent_rating.getD 0)).isEmpty then 0
             else (((((completedEvents (e :: es)).filter
                (fun c => c.parent_rating.getD 0 != 0)).map
                (fun c => c.parent_rating.getD 0)).sum : ℤ) : ℚ) /
               ((((completedEvents (e :: es)).filter
                (fun c => c.parent_rating.getD 0 != 0)).map
                (fun c => c.parent_rating.getD 0)).length : ℚ)) := rfl
        rw [e1, hr]
        rfl
  · constructor
    · have e1 : (get_analytics idDate "d" oneCompleted240).average_duration_seconds
          = pyRound 1 (((((240 : ℤ) + 0) : ℤ) : ℚ) / ((1 : ℕ) : ℚ)) := rfl
      have e2 : (((((240 : ℤ) + 0) : ℤ) : ℚ) / ((1 : ℕ) : ℚ)) = 240 := by
        push_cast; ring
      have hf : ratFloor ((240 : ℚ) * (10 : ℚ) ^ (1 : ℕ)) = 2400 :=
        ratFloor_eq _ _ (by norm_num) (by norm_num)
      rw [e1, e2]
      simp only [pyRound, roundHalfEven, hf]
      rw [if_pos (by norm_num)]
      norm_num
    · have e1 : (get_analytics idDate "d" oneCompleted240).average_rating
          = pyRound 2 (0 : ℚ) := rfl
      rw [e1, pyRound_zero]

/-- Witness for C7 (amended): the one-event 240-second log reports
exactly 240.0 and 0.0. -/
theorem analytics_means_witness :
    (get_analytics idDate "d" oneCompleted240).average_duration_seconds = 240 ∧
    (get_analytics idDate "d" oneCompleted240).average_rating = 0 :=
  (analytics_means idDate "d" oneCompleted240 (by decide)).2

/-- Setting a key makes lookup return the new value. -/
theorem getCount_setCount_self (d : List (String × Nat)) (k : String) (v : Nat) :
    getCount (setCount d k v) k = v := by
  induction d with
  | nil => simp [setCount, getCount]
  | cons p rest ih =>
    obtain ⟨k', v'⟩ := p
    by_cases h : k' == k
    · simp [setCount, h, getCount]
    · simp only [setCount, h, if_false, Bool.false_eq_true]
      simpa [getCount, List.find?, h] using ih

/-- Setting a different key leaves lookup unchanged. -/
theorem getCount_setCount_ne (d : List (String × Nat)) (k k' : String) (v : Nat)
    (h : (k' == k) = false) : getCount (setCount d k' v) k = getCount d k := by
  induction d with
  | nil => simp [setCount, getCount, List.find?, h]
  | cons p rest ih =>
    obtain ⟨k0, v0⟩ := p
    by_cases h0 : k0 == k'
    · have hk : (k0 == k) = false := by
        have : k0 = k' := by simpa using h0
        subst this; exact h
      simp [setCount, h0, getCount, List.find?, h, hk]
    · simp only [setCount, h0, if_false, Bool.false_eq_true]
      by_cases hk : k0 == k
      · simp [getCount, List.find?, hk]
      · simpa [getCount, List.find?, hk] using ih

/-- The effect of one `d[k] = d.get(k, 0) + 1` on a lookup. -/
theorem getCount_bump (d : List (String × Nat)) (k k' : String) :
    getCount (bumpCount d k') k
      = getCount d k + (if (k' == k) = true then 1 else 0) := by
  by_cases h : k' == k
  · have : k' = k := by simpa using h
    subst this
    simp [bumpCount, getCount_setCount_self]
  · simp only [Bool.not_eq_true] at h
    simp [bumpCount, getCount_setCount_ne d k k' _ h, h]

/-- The grouping fold counts exactly the events projecting to each
key. -/
theorem getCount_foldl {α : Type} (f : α → String) (l : List α)
    (d : List (String × Nat)) (k : String) :
    getCount (l.foldl (fun acc e => bumpCount acc (f e)) d) k
      = getCount d k + l.countP (fun e => f e == k) := by
  induction l generalizing d with
  | nil => simp
  | cons e es ih =>
    simp only [List.foldl_cons, List.countP_cons, ih, getCount_bump]
    by_cases h : f e == k <;> simp [h] <;> omega

/-- C8: the analytics summary counts `call_started` events grouped by
duration key, and grouped by the literal age integer rendered as a
string; on the concrete two-event log the duration breakdown is
exactly one `5min` and one `10min` call. -/
theorem analytics_grouping (dateOf : String → String) (today : String)
    (store : List AnalyticsEvent) (k : String) :
    getCount (get_analytics dateOf today store).calls_by_duration k
      = (startedEvents store).countP (fun e => e.call_duration == k) ∧
    getCount (get_analytics dateOf today store).calls_by_age k
      = (startedEvents store).countP (fun e => toString e.child_age == k) ∧
    (get_analytics idDate "d" twoStarted).calls_by_duration
      = [("5min", 1), ("10min", 1)] := by
  refine ⟨?_, ?_, by decide⟩ <;>
    cases store with
    | nil => simp [get_analytics, startedEvents, getCount]
    | cons e es =>
      simp only [get_analytics, List.isEmpty_cons, if_false, Bool.false_eq_true,
        getCount_foldl]
      simp [getCount]

/-- A list is a `isPrefixOf` itself extended by anything. -/
theorem isPrefixOf_self_append (p r : List Char) : p.isPrefixOf (p ++ r) = true := by
  induction p with
  | nil => simp [List.isPrefixOf]
  | cons a as ih => simp [List.isPrefixOf, ih]

/-- A list occurs in itself extended by anything. -/
theorem hasSub_self_append (p r : List Char) : hasSub p (p ++ r) = true := by
  cases p with
  | nil =>
    cases r with
    | nil => rfl
    | cons c cs => simp [hasSub, List.isPrefixOf]
  | cons a as => simp [hasSub, isPrefixOf_self_append]

/-- Occurrence is preserved by prepending one character. -/
theorem hasSub_cons (p : List Char) (c : Char) (s : List Char)
    (h : hasSub p s = true) : hasSub p (c :: s) = true := by
  simp [hasSub, h]

/-- Occurrence is preserved by prepending any list. -/
theorem hasSub_append_left (p a s : List Char) (h : hasSub p s = true) :
    hasSub p (a ++ s) = true := by
  induction a with
  | nil => exact h
  | cons c cs ih => exact hasSub_cons _ _ _ ih

/-- An occurrence not at the head is an occurrence in the tail. -/
theorem hasSub_of_cons {p : List Char} {c : Char} {s : List Char}
    (h : hasSub p (c :: s) = true) (hn : ¬p.isPrefixOf (c :: s) = true) :
    hasSub p s = true := by
  simp only [hasSub, Bool.or_eq_true] at h
  rcases h with h | h
  · exact absurd h hn
  · exact h

/-- Lists whose heads differ are not prefixes of one another. -/
theorem isPrefixOf_head_ne (a b : Char) (as bs : List Char)
    (h : (a == b) = false) : (a :: as).isPrefixOf (b :: bs) = false := by
  simp [List.isPrefixOf, h]

/-- If the `child_name` placeholder occurs in a template that starts
with the `child` placeholder but not with the `child_name`
placeholder, then the occurrence survives dropping the seven
characters of the `child` placeholder (the placeholder's opening
brace occurs in those seven characters only at position 0). -/
theorem hasSub_phName_drop7 (t : List Char)
    (h7 : phChildChars.isPrefixOf t = true)
    (hn : ¬phNameChars.isPrefixOf t = true)
    (hs : hasSub phNameChars t = true) :
    hasSub phNameChars (t.drop 7) = true := by
  rw [ List.isPrefixOf_iff_prefix] at h7
  obtain ⟨r, hr⟩ := h7
  subst hr
  simp only [phChildChars, List.cons_append, List.nil_append] at hn hs ⊢
  have hdrop : (('\x7b' :: 'c' :: 'h' :: 'i' :: 'l' :: 'd' :: '\x7d' :: r).drop 7) = r := rfl
  rw [hdrop]
  have e1 : phNameChars.isPrefixOf ('c' :: 'h' :: 'i' :: 'l' :: 'd' :: '\x7d' :: r) = false :=
    isPrefixOf_head_ne _ _ _ _ (by decide)
  have e2 : phNameChars.isPrefixOf ('h' :: 'i' :: 'l' :: 'd' :: '\x7d' :: r) = false :=
    isPrefixOf_head_ne _ _ _ _ (by decide)
  have e3 : phNameChars.isPrefixOf ('i' :: 'l' :: 'd' :: '\x7d' :: r) = false :=
    isPrefixOf_head_ne _ _ _ _ (by decide)
  have e4 : phNameChars.isPrefixOf ('l' :: 'd' :: '\x7d' :: r) = false :=
    isPrefixOf_head_ne _ _ _ _ (by decide)
  have e5 : phNameChars.isPrefixOf ('d' :: '\x7d' :: r) = false :=
    isPrefixOf_head_ne _ _ _ _ (by decide)
  have e6 : phNameChars.isPrefixOf ('\x7d' :: r) = false :=
    isPrefixOf_head_ne _ _ _ _ (by decide)
  rw [Bool.not_eq_true] at hn
  simp only [hasSub, hn, e1, e2, e3, e4, e5, e6, Bool.false_or] at hs
  exact hs

/-- If a template contains the `child_name` placeholder, then the
formatted output contains the substituted name. -/
theorem formatChars_keeps_sub (nm tm : List Char) :
    ∀ t, hasSub phNameChars t = true → hasSub nm (formatChars nm tm t) = true := by
  have main : ∀ n (t : List Char), t.length ≤ n → hasSub phNameChars t = true →
      hasSub nm (formatChars nm tm t) = true := by
    intro n
    induction n with
    | zero =>
      intro t ht h
      have : t = [] := List.length_eq_zero.mp (Nat.le_zero.mp ht)
      subst this
      simp [hasSub, phNameChars, List.isEmpty] at h
    | succ n ih =>
      intro t ht h
      cases t with
      | nil => simp [hasSub, phNameChars, List.isEmpty] at h
      | cons c cs =>
        simp only [formatChars]
        by_cases h1 : phNameChars.isPrefixOf (c :: cs) = true
        · rw [if_pos h1]
          exact hasSub_self_append nm _
        · rw [if_neg h1]
          by_cases h2 : phChildChars.isPrefixOf (c :: cs) = true
          · rw [if_pos h2]
            apply hasSub_append_left
            apply ih
            · simp only [List.length_cons] at ht
              simp only [List.length_drop, List.length_cons]
              omega
            · exact hasSub_phName_drop7 _ h2 h1 h
          · rw [if_neg h2]
            apply hasSub_cons
            apply ih
            · simp only [List.length_cons] at ht
              omega
            · exact hasSub_of_cons h h1
  exact fun t => main t.length t (Nat.le_refl _)

/-- The `getD`-default element of a list at an in-range index is a
member. -/
theorem getD_mem_of_lt (l : List String) (i : Nat) (h : i < l.length) :
    l.getD i "" ∈ l := by
  rw [List.getD_eq_getElem?_getD, List.getElem?_eq_getElem h]
  exact List.getElem_mem h

/-- C9: under the catalog precondition that every greeting template
of the selected band contains the `child_name` placeholder (and the
band is non-empty, so `random.choice` does not raise), the generated
greeting contains the literal child name, and equals some template of
the selected band's list with the name and the fixed term `child`
substituted in. -/
theorem greeting_contains_name (catalog : ArcCatalog) (pick : Nat)
    (child_name : String) (child_age : Int)
    (hne : greetingTemplatesFor catalog child_age ≠ [])
    (hph : ∀ t ∈ greetingTemplatesFor catalog child_age,
        hasSub phNameChars t.data = true) :
    hasSub child_name.data (generate_greeting catalog pick child_name child_age).data
      = true ∧
    ∃ t ∈ greetingTemplatesFor catalog child_age,
      generate_greeting catalog pick child_name child_age
        = pyFormat t child_name "child" := by
  have hpos : 0 < (greetingTemplatesFor catalog child_age).length :=
    List.length_pos.mpr hne
  have hlt : pick % (greetingTemplatesFor catalog child_age).length
      < (greetingTemplatesFor catalog child_age).length := Nat.mod_lt _ hpos
  have hmem : (greetingTemplatesFor catalog child_age).getD
      (pick % (greetingTemplatesFor catalog child_age).length) ""
      ∈ greetingTemplatesFor catalog child_age := getD_mem_of_lt _ _ hlt
  refine ⟨?_, ⟨_, hmem, rfl⟩⟩
  exact formatChars_keeps_sub _ _ _ (hph _ hmem)

/-- Witness for C9: a concrete greeting on the sample catalog
contains the child's name. -/
theorem greeting_contains_name_witness :
    hasSub "Max".data (generate_greeting sampleCatalog 0 "Max" 6).data = true :=
  (greeting_contains_name sampleCatalog 0 "Max" 6 (by decide) (by decide)).1

/-- One `load_conversation_arc` call leaves every pre-existing heap
object unchanged: it only allocates a fresh address and writes
there. -/
theorem load_heap_preserves {st : Store} {root : Nat} {dur : String} {age : Int}
    {r : Nat} {stOut : Store}
    (h : load_conversation_arc_heap st root dur age = some (r, stOut)) :
    ∀ a, a < st.length → stOut[a]? = st[a]? := by
  intro a ha
  simp only [load_conversation_arc_heap] at h
  repeat' split at h
  all_goals try exact Option.noConfusion h
  simp only [Option.some.injEq, Prod.mk.injEq] at h
  obtain ⟨-, hst⟩ := h
  subst hst
  have hne : st.length ≠ a := Ne.symm (Nat.ne_of_lt ha)
  rw [List.getElem?_set_ne hne, List.getElem?_set_ne hne,
    List.getElem?_append_left ha]

/-- C3: over any sequence of `load_conversation_arc` calls, every
object of the initial store - in particular the catalog's stored
`Arc` dictionary for each duration - is left exactly as it was at
load time. -/
theorem arc_catalog_frame (calls : List (String × Int)) (st : Store) (root : Nat)
    (a : Nat) (ha : a < st.length) :
    (runArcCalls root st calls)[a]? = st[a]? := by
  induction calls generalizing st with
  | nil => rfl
  | cons c rest ih =>
    cases hl : load_conversation_arc_heap st root c.1 c.2 with
    | none => simpa only [runArcCalls, hl] using ih st ha
    | some p =>
      have hpres := load_heap_preserves hl
      have ha' : a < p.2.length := by
        have h1 : p.2[a]? = st[a]? := hpres a ha
        have h2 : st[a]? = some st[a] := List.getElem?_eq_getElem ha
        rw [h2] at h1
        obtain ⟨hlt, -⟩ := List.getElem?_eq_some_iff.mp h1
        exact hlt
      simp only [runArcCalls, hl]
      rw [ih p.2 ha', hpres a ha]

/-- Witness for C3: after two calls on the sample heap, the stored
`5min` arc dictionary (address 4) is unchanged. -/
theorem arc_catalog_frame_witness :
    (runArcCalls 0 sampleHeap [("5min", 3), ("5min", 10)])[4]? = sampleHeap[4]? :=
  arc_catalog_frame [("5min", 3), ("5min", 10)] sampleHeap 0 4 (by decide)

/-- Lookup past a dictionary that lacks the key. -/
theorem dictGet_none_append (d e : PyDict) (k : String)
    (h : dictGet d k = none) : dictGet (d ++ e) k = dictGet e k := by
  induction d with
  | nil => rfl
  | cons p rest ih =>
    cases hp : (p.1 == k) with
    | true => simp [dictGet, List.find?, hp] at h
    | false =>
      simp only [dictGet, List.find?, hp] at h ⊢
      exact ih h

/-- Assigning an absent key appends it. -/
theorem dictSet_append_of_none (d : PyDict) (k : String) (v : PyVal)
    (h : dictGet d k = none) : dictSet d k v = d ++ [(k, v)] := by
  induction d with
  | nil => rfl
  | cons p rest ih =>
    obtain ⟨k', v'⟩ := p
    cases hp : (k' == k) with
    | true => simp [dictGet, List.find?, hp] at h
    | false =>
      simp only [dictGet, List.find?, hp] at h
      simp only [dictSet, hp, Bool.false_eq_true, if_false, List.cons_append,
        List.cons.injEq, true_and]
      exact ih h

/-- Appending two fresh keys does not change lookups of other keys. -/
theorem dictGet_append_two_ne (d : PyDict) (k k1 k2 : String) (v1 v2 : PyVal)
    (h1 : (k1 == k) = false) (h2 : (k2 == k) = false) :
    dictGet (d ++ [(k1, v1), (k2, v2)]) k = dictGet d k := by
  induction d with
  | nil => simp [dictGet, List.find?, h1, h2]
  | cons p rest ih =>
    cases hp : (p.1 == k) with
    | true => simp [dictGet, List.find?, hp]
    | false =>
      simp only [dictGet, List.find?, List.cons_append, hp] at ih ⊢
      exact ih

/-- C10: `load_conversation_arc` returns a shallow copy of the
catalog's stored arc: the fresh dictionary consists of the stored
arc's entries (each holding the same value — for references, the same
address, so nested phases/goals/guidelines are shared, not
duplicated) followed by exactly the two new top-level entries
`age_adaptation` (the catalog's adaptation value for the selected
band) and `timing` (the catalog's timing value for the duration).
The hypotheses resolve the catalog layout and state that the stored
arc lacks the two added keys. -/
theorem load_arc_shallow_copy
    (st : Store) (root : Nat) (dur : String) (age : Int) (r : Nat) (stOut : Store)
    (rootD arcsD arcD aaD tgD : PyDict) (arcsA arcA aaA tgA : Nat) (aaV tgV : PyVal)
    (hroot : st[root]? = some rootD)
    (harcsRef : getRef (dictGet rootD "arcs") = some arcsA)
    (harcsD : st[arcsA]? = some arcsD)
    (harcRef : getRef (dictGet arcsD dur) = some arcA)
    (harcD : st[arcA]? = some arcD)
    (haaRef : getRef (dictGet rootD "age_adaptations") = some aaA)
    (haaD : st[aaA]? = some aaD)
    (haaV : dictGet aaD (bandKey age) = some aaV)
    (htgRef : getRef (dictGet rootD "timing_guidelines") = some tgA)
    (htgD : st[tgA]? = some tgD)
    (htgV : dictGet tgD dur = some tgV)
    (hk1 : dictGet arcD "age_adaptation" = none)
    (hk2 : dictGet arcD "timing" = none)
    (h : load_conversation_arc_heap st root dur age = some (r, stOut)) :
    stOut[r]? = some (arcD ++ [("age_adaptation", aaV), ("timing", tgV)]) ∧
    (∀ k, k ≠ "age_adaptation" → k ≠ "timing" →
      dictGet (arcD ++ [("age_adaptation", aaV), ("timing", tgV)]) k
        = dictGet arcD k) ∧
    dictGet (arcD ++ [("age_adaptation", aaV), ("timing", tgV)]) "age_adaptation"
      = some aaV ∧
    dictGet (arcD ++ [("age_adaptation", aaV), ("timing", tgV)]) "timing"
      = some tgV ∧
    (arcD ++ [("age_adaptation", aaV), ("timing", tgV)]).map Prod.fst
      = arcD.map Prod.fst ++ ["age_adaptation", "timing"] := by
  have hbeq : (("age_adaptation" : String) == "timing") = false := by decide
  have haaLt : aaA < st.length := by
    obtain ⟨hlt, -⟩ := List.getElem?_eq_some_iff.mp haaD
    exact hlt
  have htgLt : tgA < st.length := by
    obtain ⟨hlt, -⟩ := List.getElem?_eq_some_iff.mp htgD
    exact hlt
  have haaD1 : (st ++ [arcD])[aaA]? = some aaD := by
    rw [List.getElem?_append_left haaLt]
    exact haaD
  have htgD2 : (List.set (st ++ [arcD]) st.length
      (dictSet arcD "age_adaptation" aaV))[tgA]? = some tgD := by
    rw [List.getElem?_set_ne (Ne.symm (Nat.ne_of_lt htgLt)),
      List.getElem?_append_left htgLt]
    exact htgD
  have hcur : (List.set (st ++ [arcD]) st.length
      (dictSet arcD "age_adaptation" aaV))[st.length]?
      = some (dictSet arcD "age_adaptation" aaV) := by
    apply List.getElem?_set_eq_of_lt
    simp
  simp only [load_conversation_arc_heap, hroot, harcsRef, harcsD, harcRef, harcD,
    haaRef, haaD1, haaV, htgRef, htgD2, htgV, hcur] at h
  simp only [Option.some.injEq, Prod.mk.injEq] at h
  obtain ⟨hr, hst⟩ := h
  subst hr
  subst hst
  have hd1 : dictSet arcD "age_adaptation" aaV = arcD ++ [("age_adaptation", aaV)] :=
    dictSet_append_of_none _ _ _ hk1
  have hk2' : dictGet (arcD ++ [("age_adaptation", aaV)]) "timing" = none := by
    rw [dictGet_none_append _ _ _ hk2]
    simp [dictGet, List.find?, hbeq]
  have hd2 : dictSet (dictSet arcD "age_adaptation" aaV) "timing" tgV
      = arcD ++ [("age_adaptation", aaV), ("timing", tgV)] := by
    rw [hd1, dictSet_append_of_none _ _ _ hk2']
    simp
  refine ⟨?_, ?_, ?_, ?_, ?_⟩
  · rw [hd2]
    apply List.getElem?_set_eq_of_lt
    simp
  · intro k hka hkt
    exact dictGet_append_two_ne _ _ _ _ _ _
      (beq_eq_false_iff_ne.mpr (Ne.symm hka)) (beq_eq_false_iff_ne.mpr (Ne.symm hkt))
  · rw [dictGet_none_append _ _ _ hk1]
    simp [dictGet, List.find?]
  · rw [dictGet_none_append _ _ _ hk2]
    simp [dictGet, List.find?, hbeq]
  · simp

/-- Witness for C10: one call on the sample heap allocates address 10
holding the stored arc's entries plus the two added references, and
the copied `phases` entry still references the original object. -/
theorem load_arc_shallow_copy_witness :
    sampleHeapAfter[10]? = some (sampleArcDict ++
      [("age_adaptation", PyVal.vref 5), ("timing", PyVal.vref 8)]) ∧
    dictGet (sampleArcDict ++
      [("age_adaptation", PyVal.vref 5), ("timing", PyVal.vref 8)]) "phases"
      = dictGet sampleArcDict "phases" := by
  have h := load_arc_shallow_copy sampleHeap 0 "5min" 3 10 sampleHeapAfter
    [("arcs", .vref 1), ("age_adaptations", .vref 2), ("timing_guidelines", .vref 3)]
    [("5min", .vref 4)] sampleArcDict
    [("ages_2_4", .vref 5), ("ages_5_8", .vref 6), ("ages_9_12", .vref 7)]
    [("5min", .vref 8)]
    1 4 2 3 (.vref 5) (.vref 8)
    (by decide) (by decide) (by decide) (by decide) (by decide) (by decide)
    (by decide) (by decide) (by decide) (by decide) (by decide) (by decide)
    (by decide) (by decide)
  exact ⟨h.1, h.2.1 "phases" (by decide) (by decide)⟩

end SantaApi
